import Mathlib

/-!
Verification of the Daraja JavaScript SDK (M-Pesa client library plus the
demonstration callback servers shipped with it).

The development shallowly embeds the parts of the source the claims are
about: the STK-push callback handler and the in-memory transaction map of
the demo server (`app.all('/mpesa/callback')`, `app.post('/stkPush')`,
`app.get('/transaction/:checkoutRequestId')`), the token caching and error
wrapping of the `DarajaSDK` class (`generateToken`, `stkPush`, `b2c`),
configuration validation (`validateConfig`, constructor), the timestamp and
password construction of `stkPush`, and the hourly transaction sweep of the
second demonstration server.

JavaScript values that matter to the claims (callback metadata values that
may be numbers or strings, absent object fields, falsy-string checks) are
modelled explicitly; machine-level behaviour that does not (floating point
number representation) is not relied on anywhere.
-/

namespace Daraja

/-- A JSON-ish value as it appears in callback metadata: `Value` fields of
`CallbackMetadata.Item` entries are numbers (amount, dates) or strings
(receipt numbers); `nullV` stands for JavaScript `null`, which
`getMetadataValue` returns when an item is absent. -/
inductive JVal where
  | num (n : Int)
  | str (s : String)
  | nullV
deriving DecidableEq

/-- One `{ Name, Value }` entry of `CallbackMetadata.Item`. -/
structure MetaItem where
  Name : String
  Value : JVal
deriving DecidableEq

/-- The `CallbackMetadata` object of an stk callback; its `Item` field may be
absent (`none`), which the handler checks for truthiness. -/
structure CallbackMetadataObj where
  Item : Option (List MetaItem)
deriving DecidableEq

/-- The `Body.stkCallback` object of an M-Pesa callback delivery. -/
structure StkCallback where
  ResultCode : Int
  ResultDesc : String
  CheckoutRequestID : String
  CallbackMetadata : Option CallbackMetadataObj
deriving DecidableEq

/-- A parsed callback request body: either it passes the handler's
`req.body && req.body.Body && req.body.Body.stkCallback` truthiness check
(`wellFormed`), or it is missing `Body` or `Body.stkCallback` (`malformed`). -/
inductive CallbackBody where
  | malformed
  | wellFormed (cb : StkCallback)
deriving DecidableEq

/-- The record stored into the `transactions` map by the callback handler of
the demo server (`src/unnamed/part_001`, lines 222-235): extracted metadata
fields, the complete raw callback, the literal status `"SUCCESS"`, and the
ISO timestamp of the moment of processing. -/
structure TransactionRecord where
  amount : JVal
  receiptNumber : JVal
  transactionDate : JVal
  phoneNumber : JVal
  rawCallback : CallbackBody
  status : String
  timestamp : String
deriving DecidableEq

/-- The `transactions` Map of the demo server, keyed by `CheckoutRequestID`. -/
abbrev Store := List (String × TransactionRecord)

/-- `transactions.set(k, v)`: bind `k` to `v`, replacing any previous binding. -/
def mapSet (store : Store) (k : String) (v : TransactionRecord) : Store :=
  (k, v) :: store.filter (fun p => p.1 != k)

/-- `transactions.get(k)`: the record bound to `k`, if any. -/
def mapGet (store : Store) (k : String) : Option TransactionRecord :=
  (store.find? (fun p => p.1 == k)).map (fun p => p.2)

/-- `getMetadataValue(name)` from the callback handler: linear search of
`CallbackMetadata.Item` by `Name`, returning the item's `Value` or `null`. -/
def getMetadataValue (items : List MetaItem) (name : String) : JVal :=
  match items.find? (fun it => it.Name == name) with
  | some it => it.Value
  | none => JVal.nullV

/-- The record the handler stores on a successful callback
(`transactions.set(CheckoutRequestID, { ...transactionData, rawCallback,
status: 'SUCCESS', timestamp })`, part_001 lines 222-235). -/
def successRecord (now : String) (cb : StkCallback) (items : List MetaItem) : TransactionRecord :=
  { amount := getMetadataValue items "Amount"
    receiptNumber := getMetadataValue items "MpesaReceiptNumber"
    transactionDate := getMetadataValue items "TransactionDate"
    phoneNumber := getMetadataValue items "PhoneNumber"
    rawCallback := CallbackBody.wellFormed cb
    status := "SUCCESS"
    timestamp := now }

/-- The store effect of the POST branch of `app.all('/mpesa/callback')`
(part_001 lines 206-246): a record is written only when the body is well
formed, `ResultCode === 0`, and `CallbackMetadata` and its `Item` are
present; every other shape only logs and leaves the map untouched. -/
def processCallback (now : String) (store : Store) (body : CallbackBody) : Store :=
  match body with
  | CallbackBody.malformed => store
  | CallbackBody.wellFormed cb =>
    if cb.ResultCode = 0 then
      match cb.CallbackMetadata with
      | some md =>
        match md.Item with
        | some items => mapSet store cb.CheckoutRequestID (successRecord now cb items)
        | none => store
      | none => store
    else store

/-- The reply of the callback endpoint: the informational JSON of the GET
test-access branch, or the `{ ResultCode, ResultDesc }` acknowledgment. -/
inductive CallbackAck where
  | testInfo (message note status : String)
  | ack (resultCode : Int) (resultDesc : String)
deriving DecidableEq

/-- The whole `app.all('/mpesa/callback')` handler (part_001 lines 179-262).
`raises` models an exception thrown while processing the POST body (for
example `CallbackMetadata.Item.find` on a non-array): the catch branch at
lines 254-261 swallows it and still replies with the fixed acknowledgment.
A throw after the `transactions.set` call behaves like the normal branch,
so both store outcomes are covered by the two non-GET branches. -/
def mpesaCallbackHandler (raises : Bool) (now : String) (store : Store)
    (method : String) (body : CallbackBody) : Store × CallbackAck :=
  if method == "GET" then
    (store, CallbackAck.testInfo "This is the M-Pesa callback URL"
      "The actual callback will be a POST request from M-Pesa"
      "Active and waiting for callbacks")
  else if raises then
    (store, CallbackAck.ack 0 "Success")
  else
    (processCallback now store body, CallbackAck.ack 0 "Success")

/-- The reply of `app.get('/transaction/:checkoutRequestId')`
(part_001 lines 265-280). -/
inductive StatusReply where
  | found (data : TransactionRecord)
  | notFound (message : String)
deriving DecidableEq

/-- The status-query endpoint: read-through to the map, with the
`not_found` sentinel for absent keys. -/
def statusQueryHandler (store : Store) (checkoutRequestId : String) : StatusReply :=
  match mapGet store checkoutRequestId with
  | some t => StatusReply.found t
  | none => StatusReply.notFound "Transaction not found"

/-- The gateway's response body to a successful STK push, as echoed by the
`/stkPush` endpoint. -/
structure StkPushApiResponse where
  MerchantRequestID : String
  CheckoutRequestID : String
  ResponseCode : String
  ResponseDescription : String
  CustomerMessage : String
deriving DecidableEq

/-- The reply of `app.post('/stkPush')`: the gateway response on success or
a 500 `{ error }` on failure. -/
inductive StkEndpointReply where
  | ok (resp : StkPushApiResponse)
  | serverError (error : String)
deriving DecidableEq

/-- `app.post('/stkPush')` (part_001 lines 150-176). The handler calls
`daraja.stkPush` (modelled by its result `sdkResult`) and echoes the
response; its body never references the `transactions` map, so the store
passes through unchanged. -/
def stkPushEndpoint (store : Store) (sdkResult : Except String StkPushApiResponse) :
    Store × StkEndpointReply :=
  match sdkResult with
  | Except.ok r => (store, StkEndpointReply.ok r)
  | Except.error e => (store, StkEndpointReply.serverError e)

/-- The two metadata items named by the spec's test vector. -/
def demoItems : List MetaItem :=
  [{ Name := "Amount", Value := JVal.num 500 },
   { Name := "MpesaReceiptNumber", Value := JVal.str "ABC123" }]

/-- A successful callback (`ResultCode = 0`) carrying the given metadata items. -/
def cbWithItems (desc id : String) (items : List MetaItem) : StkCallback :=
  { ResultCode := 0
    ResultDesc := desc
    CheckoutRequestID := id
    CallbackMetadata := some { Item := some items } }

/-- A failed callback (`ResultCode = 1`) with arbitrary metadata. -/
def failCbWith (desc id : String) (md : Option CallbackMetadataObj) : StkCallback :=
  { ResultCode := 1
    ResultDesc := desc
    CheckoutRequestID := id
    CallbackMetadata := md }

/-- A successful callback for correlation id `ws_CO_1` carrying `demoItems`. -/
def demoSuccessCb : StkCallback :=
  { ResultCode := 0
    ResultDesc := "The service request is processed successfully."
    CheckoutRequestID := "ws_CO_1"
    CallbackMetadata := some { Item := some demoItems } }

/-- A failed callback (`ResultCode = 1`) for correlation id `ws_CO_2`. -/
def failDemoCallback : StkCallback :=
  { ResultCode := 1
    ResultDesc := "Request cancelled by user"
    CheckoutRequestID := "ws_CO_2"
    CallbackMetadata := none }

/-- A concrete gateway response to a push request. -/
def demoStkResponse : StkPushApiResponse :=
  { MerchantRequestID := "29115-34620561-1"
    CheckoutRequestID := "ws_CO_1"
    ResponseCode := "0"
    ResponseDescription := "Success. Request accepted for processing"
    CustomerMessage := "Success. Request accepted for processing" }

/-- JavaScript truthiness of a possibly-absent string, as used by
`!this.auth`, the `||` fallbacks and `validateConfig`: absent (`none`) and
the empty string are falsy, every other string is truthy. -/
def jsTruthyStr : Option String → Bool
  | none => false
  | some s => s != ""

/-- The mutable authentication state of a `DarajaSDK` instance: `this.auth`,
`null` until a token is cached. -/
structure AuthState where
  auth : Option String
deriving DecidableEq

/-- `generateToken` (src/index.js lines 76-91). The token-exchange HTTP call
is modelled by its outcome `net`: on success `this.auth` is set to the
returned `access_token`; on any failure the method throws an Error whose
message wraps the upstream message. -/
def generateToken : Except String String → Except String AuthState
  | Except.ok tok => Except.ok { auth := some tok }
  | Except.error e => Except.error ("Token generation failed: " ++ e)

/-- The `if (!this.auth) await this.generateToken()` guard shared by every
gateway operation. Returns the resulting state (or the propagated error)
together with the number of token-exchange calls performed (0 or 1). -/
def ensureAuth (net : Except String String) (st : AuthState) :
    Except String AuthState × Nat :=
  if jsTruthyStr st.auth then (Except.ok st, 0)
  else
    match generateToken net with
    | Except.ok st2 => (Except.ok st2, 1)
    | Except.error e => (Except.error e, 1)

/-- `stkPush` (src/index.js lines 104-139): acquire a token if none is
cached, then issue the main POST (outcome `callNet`, whose error string
stands for `error.response.data.errorMessage || error.message`). Returns
the state after the call, the wrapped result, and the number of
token-exchange calls made. On a thrown error `this.auth` keeps whatever
value it had when the throw happened. -/
def stkPushOp (net callNet : Except String String) (st : AuthState) :
    AuthState × Except String String × Nat :=
  match ensureAuth net st with
  | (Except.error e, n) => (st, Except.error ("STK push failed: " ++ e), n)
  | (Except.ok st2, n) =>
    match callNet with
    | Except.ok resp => (st2, Except.ok resp, n)
    | Except.error e => (st2, Except.error ("STK push failed: " ++ e), n)

/-- `b2c` (src/index.js lines 152-180): same credential-then-call shape as
`stkPush` with the disbursement error prefix. -/
def b2cOp (net callNet : Except String String) (st : AuthState) :
    AuthState × Except String String × Nat :=
  match ensureAuth net st with
  | (Except.error e, n) => (st, Except.error ("B2C payment failed: " ++ e), n)
  | (Except.ok st2, n) =>
    match callNet with
    | Except.ok resp => (st2, Except.ok resp, n)
    | Except.error e => (st2, Except.error ("B2C payment failed: " ++ e), n)

/-- The raw constructor arguments / environment fallback values: every
configuration field is a possibly-absent string, matching
`config.x || process.env.X`. -/
structure RawConfig where
  consumerKey : Option String
  consumerSecret : Option String
  environment : Option String
  businessShortCode : Option String
  passKey : Option String
  callbackUrl : Option String
  timeoutUrl : Option String
  resultUrl : Option String
  initiatorName : Option String
  securityCredential : Option String
deriving DecidableEq

/-- One `config.x || process.env.X` fallback. -/
def resolveField (c e : Option String) : Option String :=
  if jsTruthyStr c then c else e

/-- The field resolution performed by the constructor (src/index.js lines
25-34): explicit config values take precedence over environment values;
`environment` additionally falls back to `'sandbox'`. -/
def resolveConfig (config env : RawConfig) : RawConfig :=
  { consumerKey := resolveField config.consumerKey env.consumerKey
    consumerSecret := resolveField config.consumerSecret env.consumerSecret
    environment := resolveField config.environment (resolveField env.environment (some "sandbox"))
    businessShortCode := resolveField config.businessShortCode env.businessShortCode
    passKey := resolveField config.passKey env.passKey
    callbackUrl := resolveField config.callbackUrl env.callbackUrl
    timeoutUrl := resolveField config.timeoutUrl env.timeoutUrl
    resultUrl := resolveField config.resultUrl env.resultUrl
    initiatorName := resolveField config.initiatorName env.initiatorName
    securityCredential := resolveField config.securityCredential env.securityCredential }

/-- The `required` object of `validateConfig` (src/index.js lines 51-59), in
source order. `environment`, `timeoutUrl` and `resultUrl` are not required. -/
def requiredEntries (c : RawConfig) : List (String × Option String) :=
  [("Consumer Key", c.consumerKey),
   ("Consumer Secret", c.consumerSecret),
   ("Business Short Code", c.businessShortCode),
   ("Pass Key", c.passKey),
   ("Callback URL", c.callbackUrl),
   ("Initiator Name", c.initiatorName),
   ("Security Credential", c.securityCredential)]

/-- `Object.entries(required).filter(([_, v]) => !v).map(([k]) => k)`. -/
def missingFields (c : RawConfig) : List String :=
  ((requiredEntries c).filter (fun p => !jsTruthyStr p.2)).map (fun p => p.1)

/-- `validateConfig` (src/index.js lines 50-68): throws when any required
field is falsy, enumerating the missing names. -/
def validateConfig (c : RawConfig) : Except String Unit :=
  if (missingFields c).isEmpty then Except.ok ()
  else
    Except.error ("Missing required configuration: "
      ++ String.intercalate ", " (missingFields c)
      ++ ". Please provide them in .env file or in the constructor.")

/-- A constructed `DarajaSDK` instance: resolved configuration, the selected
base URL, and `this.auth = null`. -/
structure DarajaSDK where
  cfg : RawConfig
  baseUrl : String
  auth : Option String
deriving DecidableEq

/-- The `DarajaSDK` constructor (src/index.js lines 23-43): resolve fields,
validate eagerly, then select the base URL by environment. -/
def mkDarajaSDK (config env : RawConfig) : Except String DarajaSDK :=
  let c := resolveConfig config env
  match validateConfig c with
  | Except.error e => Except.error e
  | Except.ok _ =>
    Except.ok
      { cfg := c
        baseUrl :=
          if c.environment == some "production" then "https://api.safaricom.co.ke"
          else "https://sandbox.safaricom.co.ke"
        auth := none }

/-- A concrete configuration missing `Pass Key` (absent) and
`Initiator Name` (empty string, falsy). -/
def demoConfig : RawConfig :=
  { consumerKey := some "ck"
    consumerSecret := some "cs"
    environment := none
    businessShortCode := some "174379"
    passKey := none
    callbackUrl := some "https://example.com/callback"
    timeoutUrl := none
    resultUrl := none
    initiatorName := some ""
    securityCredential := some "cred" }

/-- An environment providing no variables at all. -/
def emptyEnvConfig : RawConfig :=
  { consumerKey := none, consumerSecret := none, environment := none
    businessShortCode := none, passKey := none, callbackUrl := none
    timeoutUrl := none, resultUrl := none, initiatorName := none
    securityCredential := none }

/-- A broken-down UTC instant, the components a JavaScript `Date` renders
through `toISOString()`. A real `Date` always has in-range components and a
four-digit year; `digit`-based padding below renders exactly what
`toISOString` renders for such values. -/
structure DateTimeUTC where
  year : Nat
  month : Nat
  day : Nat
  hour : Nat
  minute : Nat
  second : Nat
  millis : Nat
deriving DecidableEq

/-- The decimal digit character of `n % 10`. -/
def digit (n : Nat) : Char :=
  match n % 10 with
  | 0 => '0' | 1 => '1' | 2 => '2' | 3 => '3' | 4 => '4'
  | 5 => '5' | 6 => '6' | 7 => '7' | 8 => '8' | _ => '9'

/-- Two-digit zero-padded rendering (`MM`, `DD`, `HH`, `mm`, `ss`). -/
def pad2 (n : Nat) : List Char := [digit (n / 10), digit n]

/-- Three-digit zero-padded rendering (the milliseconds group). -/
def pad3 (n : Nat) : List Char := [digit (n / 100), digit (n / 10), digit n]

/-- Four-digit zero-padded rendering (the year). -/
def pad4 (n : Nat) : List Char :=
  [digit (n / 1000), digit (n / 100), digit (n / 10), digit n]

/-- The characters of `new Date().toISOString()`:
`YYYY-MM-DDTHH:mm:ss.sssZ`. -/
def toISOStringChars (d : DateTimeUTC) : List Char :=
  pad4 d.year ++ '-' :: (pad2 d.month ++ '-' :: (pad2 d.day
    ++ 'T' :: (pad2 d.hour ++ ':' :: (pad2 d.minute
    ++ ':' :: (pad2 d.second ++ '.' :: (pad3 d.millis ++ ['Z']))))))

/-- The timestamp built by `stkPush` and `stkPushQuery` (src/index.js lines
108 and 420): `new Date().toISOString().replace(/[^0-9]/g, '').slice(0, -3)`
— strip every non-digit character, then drop the trailing three
milliseconds digits. -/
def darajaTimestamp (d : DateTimeUTC) : String :=
  ⟨((toISOStringChars d).filter Char.isDigit).take
    (((toISOStringChars d).filter Char.isDigit).length - 3)⟩

/-- The base64 alphabet. -/
def base64Chars : List Char :=
  "ABCDEFGHIJKLMNOPQRSTUVWXYZabcdefghijklmnopqrstuvwxyz0123456789+/".data

/-- The base64 character of a 6-bit group. -/
def b64Char (n : Nat) : Char := base64Chars.getD n 'A'

/-- RFC 4648 base64 of a byte sequence, as produced by
`Buffer.from(...).toString('base64')`. -/
def base64Encode : List Nat → List Char
  | [] => []
  | [a] => [b64Char (a / 4), b64Char (a % 4 * 16), '=', '=']
  | [a, b] => [b64Char (a / 4), b64Char (a % 4 * 16 + b / 16), b64Char (b % 16 * 4), '=']
  | a :: b :: c :: rest =>
    b64Char (a / 4) :: b64Char (a % 4 * 16 + b / 16)
      :: b64Char (b % 16 * 4 + c / 64) :: b64Char (c % 64) :: base64Encode rest

/-- `Buffer.from(s).toString('base64')`: base64 of the UTF-8 bytes of `s`. -/
def base64EncodeStr (s : String) : String :=
  ⟨base64Encode (s.toUTF8.toList.map (fun b => b.toNat))⟩

/-- The JSON body `stkPush` sends to `/mpesa/stkpush/v1/processrequest`
(src/index.js lines 117-129). -/
structure StkPushRequestBody where
  BusinessShortCode : String
  Password : String
  Timestamp : String
  TransactionType : String
  Amount : Int
  PartyA : String
  PartyB : String
  PhoneNumber : String
  CallBackURL : String
  AccountReference : String
  TransactionDesc : String
deriving DecidableEq

/-- The request construction of `stkPush` (src/index.js lines 108-129):
`timestamp` from the current UTC time, `password` as
`Buffer.from(shortCode + passKey + timestamp).toString('base64')`. -/
def buildStkPushRequest (shortCode passKey callbackUrl : String) (now : DateTimeUTC)
    (phoneNumber : String) (amount : Int)
    (accountReference transactionDesc : String) : StkPushRequestBody :=
  let timestamp := darajaTimestamp now
  let password := base64EncodeStr (shortCode ++ passKey ++ timestamp)
  { BusinessShortCode := shortCode
    Password := password
    Timestamp := timestamp
    TransactionType := "CustomerPayBillOnline"
    Amount := amount
    PartyA := phoneNumber
    PartyB := shortCode
    PhoneNumber := phoneNumber
    CallBackURL := callbackUrl
    AccountReference := accountReference
    TransactionDesc := transactionDesc }

/-- The record kept by the second demonstration server (the related document
bundled in tests/daraja.test.js): a status string, an optional result
message, and a `Date.now()` epoch-milliseconds timestamp. -/
structure PollRecord where
  status : String
  message : Option String
  timestamp : Int
deriving DecidableEq

/-- One hour in milliseconds, the retention window and cadence of the
periodic cleanup. -/
def oneHourMs : Int := 60 * 60 * 1000

/-- The body of the hourly cleanup interval of the second demonstration
server: for each stored entry, `if (transaction.timestamp < Date.now() -
maxAge) transactions.delete(key)`; the reference behaviour runs it with
`maxAge = oneHourMs`. -/
def sweepTransactions (now maxAge : Int) (store : List (String × PollRecord)) :
    List (String × PollRecord) :=
  store.filter (fun e => !(decide (e.2.timestamp < now - maxAge)))

theorem mapGet_mapSet_self (store : Store) (k : String) (v : TransactionRecord) :
    mapGet (mapSet store k v) k = some v := by
  simp [mapGet, mapSet, List.find?]

theorem find?_filter_ne (store : Store) (k k2 : String) (h : k2 ≠ k) :
    (store.filter (fun p => p.1 != k)).find? (fun p => p.1 == k2) =
      store.find? (fun p => p.1 == k2) := by
  induction store with
  | nil => rfl
  | cons a l ih =>
    by_cases h3 : a.1 = k2
    · have hkeep : (a.1 != k) = true := by
        simp only [bne_iff_ne, ne_eq, h3]
        exact h
      rw [List.filter_cons, if_pos hkeep,
        List.find?_cons_of_pos _ (by simpa using h3),
        List.find?_cons_of_pos _ (by simpa using h3)]
    · by_cases hk : a.1 = k
      · have hdrop : ¬ ((a.1 != k) = true) := by simp [hk]
        rw [List.filter_cons, if_neg hdrop, ih,
          List.find?_cons_of_neg _ (by simpa using h3)]
      · have hkeep : (a.1 != k) = true := by simpa using hk
        rw [List.filter_cons, if_pos hkeep,
          List.find?_cons_of_neg _ (by simpa using h3),
          List.find?_cons_of_neg _ (by simpa using h3), ih]

theorem mapGet_mapSet_ne (store : Store) (k k2 : String) (v : TransactionRecord)
    (h : k2 ≠ k) : mapGet (mapSet store k v) k2 = mapGet store k2 := by
  have h2 : (k == k2) = false := by
    simp
    exact fun he => h he.symm
  simp [mapGet, mapSet, List.find?, h2, find?_filter_ne store k k2 h]

theorem processCallback_not_zero (now : String) (store : Store) (cb : StkCallback)
    (h : cb.ResultCode ≠ 0) :
    processCallback now store (CallbackBody.wellFormed cb) = store := by
  simp [processCallback, h]

theorem processCallback_no_metadata (now : String) (store : Store) (cb : StkCallback)
    (hcm : cb.CallbackMetadata = none) :
    processCallback now store (CallbackBody.wellFormed cb) = store := by
  by_cases h0 : cb.ResultCode = 0
  · simp [processCallback, h0, hcm]
  · exact processCallback_not_zero now store cb h0

theorem processCallback_no_items (now : String) (store : Store) (cb : StkCallback)
    (md : CallbackMetadataObj) (hcm : cb.CallbackMetadata = some md) (hit : md.Item = none) :
    processCallback now store (CallbackBody.wellFormed cb) = store := by
  by_cases h0 : cb.ResultCode = 0
  · simp [processCallback, h0, hcm, hit]
  · exact processCallback_not_zero now store cb h0

theorem processCallback_writes (now : String) (store : Store) (cb : StkCallback)
    (md : CallbackMetadataObj) (items : List MetaItem) (h0 : cb.ResultCode = 0)
    (hcm : cb.CallbackMetadata = some md) (hit : md.Item = some items) :
    processCallback now store (CallbackBody.wellFormed cb)
      = mapSet store cb.CheckoutRequestID (successRecord now cb items) := by
  simp [processCallback, h0, hcm, hit]

/-- C1: every actual callback delivery to the callback endpoint is
acknowledged with exactly the body `ResultCode 0 / ResultDesc "Success"`,
including requests whose body is malformed and requests whose processing
throws; no error surfaces outward. Actual callback deliveries are the
non-GET requests (M-Pesa delivers callbacks by POST); the only branch that
replies differently is the GET browser-test branch, which is not a
callback. -/
theorem callback_ack_fixed_success (raises : Bool) (now : String) (store : Store)
    (method : String) (body : CallbackBody) (h : method ≠ "GET") :
    (mpesaCallbackHandler raises now store method body).2 = CallbackAck.ack 0 "Success" := by
  have h2 : (method == "GET") = false := by simpa using h
  unfold mpesaCallbackHandler
  rw [h2]
  cases raises <;> simp

/-- C1 witness: a malformed POST body whose processing also throws is still
acknowledged with the fixed success body. -/
theorem callback_ack_fixed_success_witness :
    (mpesaCallbackHandler true "2025-01-01T00:00:00.000Z" [] "POST"
      CallbackBody.malformed).2 = CallbackAck.ack 0 "Success" :=
  callback_ack_fixed_success true "2025-01-01T00:00:00.000Z" [] "POST"
    CallbackBody.malformed (by decide)

/-- C2 counterexample: applying a callback with ResultCode 1 to an empty
store writes nothing — the map stays empty and the status query returns the
not-found sentinel, so no record with status FAILED carrying the result
description is ever produced. -/
theorem failed_callback_writes_nothing :
    processCallback "2025-01-01T00:00:00.000Z" []
      (CallbackBody.wellFormed failDemoCallback) = [] ∧
    statusQueryHandler
      (processCallback "2025-01-01T00:00:00.000Z" []
        (CallbackBody.wellFormed failDemoCallback)) "ws_CO_2"
      = StatusReply.notFound "Transaction not found" := by
  exact ⟨by decide, by decide⟩

/-- C2 (amended): a callback with `ResultCode = 0` and metadata items
Amount 500 / MpesaReceiptNumber "ABC123" stores a record with status
SUCCESS, amount 500 and receipt "ABC123", observable via the status query;
a callback with `ResultCode = 1` leaves the transaction map completely
unchanged (no FAILED record is stored; the handler only logs failures), so
the status query answers exactly as before. -/
theorem apply_callback_success_and_failure_effect (now desc id : String) (store : Store)
    (md : Option CallbackMetadataObj) :
    statusQueryHandler
        (processCallback now store (CallbackBody.wellFormed (cbWithItems desc id demoItems))) id
      = StatusReply.found (successRecord now (cbWithItems desc id demoItems) demoItems) ∧
    (successRecord now (cbWithItems desc id demoItems) demoItems).status = "SUCCESS" ∧
    (successRecord now (cbWithItems desc id demoItems) demoItems).amount = JVal.num 500 ∧
    (successRecord now (cbWithItems desc id demoItems) demoItems).receiptNumber
      = JVal.str "ABC123" ∧
    processCallback now store (CallbackBody.wellFormed (failCbWith desc id md)) = store ∧
    statusQueryHandler
        (processCallback now store (CallbackBody.wellFormed (failCbWith desc id md))) id
      = statusQueryHandler store id := by
  have hfail : processCallback now store (CallbackBody.wellFormed (failCbWith desc id md))
      = store := processCallback_not_zero now store _ (by simp [failCbWith])
  have hset : processCallback now store (CallbackBody.wellFormed (cbWithItems desc id demoItems))
      = mapSet store id (successRecord now (cbWithItems desc id demoItems) demoItems) :=
    processCallback_writes now store _ _ _ rfl rfl rfl
  refine ⟨?_, rfl, rfl, rfl, hfail, by rw [hfail]⟩
  rw [hset]
  simp [statusQueryHandler, mapGet_mapSet_self]

/-- C3 counterexample: issuing the push-payment request creates no record at
all — after `/stkPush` replies, the store is unchanged (here: still empty),
so no record in PENDING state exists for the returned CheckoutRequestID. -/
theorem push_registers_no_pending :
    (stkPushEndpoint [] (Except.ok demoStkResponse)).1 = [] ∧
    mapGet (stkPushEndpoint [] (Except.ok demoStkResponse)).1 "ws_CO_1" = none :=
  ⟨rfl, rfl⟩

/-- C3 (amended): in the demo server the push endpoint never touches the
transaction store, and the callback handler only ever writes records whose
status is the terminal "SUCCESS"; hence every record of the updated store
is either the freshly written SUCCESS record or a record the handler left
untouched. No record is ever stored in PENDING state, and a stored SUCCESS
record can only be replaced by another SUCCESS record. -/
theorem push_and_callback_store_invariant (store : Store)
    (sdkResult : Except String StkPushApiResponse) (now : String) (body : CallbackBody)
    (k : String) (rec : TransactionRecord) :
    (stkPushEndpoint store sdkResult).1 = store ∧
    (mapGet (processCallback now store body) k = some rec →
      rec.status = "SUCCESS" ∨ mapGet store k = some rec) := by
  constructor
  · cases sdkResult <;> rfl
  · intro hget
    cases body with
    | malformed => exact Or.inr hget
    | wellFormed cb =>
      by_cases h0 : cb.ResultCode = 0
      · cases hcm : cb.CallbackMetadata with
        | none =>
          rw [processCallback_no_metadata now store cb hcm] at hget
          exact Or.inr hget
        | some md =>
          cases hit : md.Item with
          | none =>
            rw [processCallback_no_items now store cb md hcm hit] at hget
            exact Or.inr hget
          | some items =>
            rw [processCallback_writes now store cb md items h0 hcm hit] at hget
            by_cases hk : k = cb.CheckoutRequestID
            · subst hk
              rw [mapGet_mapSet_self] at hget
              left
              injection hget with h
              rw [← h]
              rfl
            · rw [mapGet_mapSet_ne store _ _ _ hk] at hget
              exact Or.inr hget
      · rw [processCallback_not_zero now store cb h0] at hget
        exact Or.inr hget

/-- C3 witness: the invariant applied to a concrete successful callback on
the empty store. -/
theorem push_and_callback_store_invariant_witness :
    (successRecord "2025-01-01T00:00:00.000Z" (cbWithItems "ok" "ws_CO_1" demoItems)
      demoItems).status = "SUCCESS" ∨
    mapGet ([] : Store) "ws_CO_1"
      = some (successRecord "2025-01-01T00:00:00.000Z"
          (cbWithItems "ok" "ws_CO_1" demoItems) demoItems) :=
  (push_and_callback_store_invariant [] (Except.ok demoStkResponse)
    "2025-01-01T00:00:00.000Z"
    (CallbackBody.wellFormed (cbWithItems "ok" "ws_CO_1" demoItems)) "ws_CO_1"
    (successRecord "2025-01-01T00:00:00.000Z"
      (cbWithItems "ok" "ws_CO_1" demoItems) demoItems)).2 (by decide)

/-- C10: a well-formed callback with `ResultCode = 0` whose CallbackMetadata
(or its Item list) is absent leaves the transaction map completely
unchanged, so when no record existed for its CheckoutRequestID the status
query still returns the not-found sentinel even though the payment
succeeded. -/
theorem success_callback_without_metadata_noop (now : String) (store : Store)
    (cb : StkCallback) (_h0 : cb.ResultCode = 0)
    (hmd : ∀ md, cb.CallbackMetadata = some md → md.Item = none)
    (habs : mapGet store cb.CheckoutRequestID = none) :
    processCallback now store (CallbackBody.wellFormed cb) = store ∧
    statusQueryHandler (processCallback now store (CallbackBody.wellFormed cb))
      cb.CheckoutRequestID = StatusReply.notFound "Transaction not found" := by
  have hstore : processCallback now store (CallbackBody.wellFormed cb) = store := by
    cases hcm : cb.CallbackMetadata with
    | none => exact processCallback_no_metadata now store cb hcm
    | some md => exact processCallback_no_items now store cb md hcm (hmd md hcm)
  refine ⟨hstore, ?_⟩
  rw [hstore]
  simp [statusQueryHandler, habs]

/-- C10 witness: a successful callback with no CallbackMetadata at all, on
the empty store. -/
theorem success_callback_without_metadata_noop_witness :
    processCallback "2025-01-01T00:00:00.000Z" []
      (CallbackBody.wellFormed
        { ResultCode := 0, ResultDesc := "The service request is processed successfully.",
          CheckoutRequestID := "ws_CO_9", CallbackMetadata := none }) = [] ∧
    statusQueryHandler
      (processCallback "2025-01-01T00:00:00.000Z" []
        (CallbackBody.wellFormed
          { ResultCode := 0, ResultDesc := "The service request is processed successfully.",
            CheckoutRequestID := "ws_CO_9", CallbackMetadata := none }))
      "ws_CO_9" = StatusReply.notFound "Transaction not found" :=
  success_callback_without_metadata_noop "2025-01-01T00:00:00.000Z" [] _
    rfl (fun _ h => nomatch h) rfl

theorem digit_isDigit (n : Nat) : (digit n).isDigit = true := by
  unfold digit
  split <;> decide

theorem mem_pad2_isDigit {c : Char} {n : Nat} (h : c ∈ pad2 n) : c.isDigit = true := by
  simp [pad2] at h
  rcases h with h | h <;> (subst h; exact digit_isDigit _)

theorem mem_pad3_isDigit {c : Char} {n : Nat} (h : c ∈ pad3 n) : c.isDigit = true := by
  simp [pad3] at h
  rcases h with h | h | h <;> (subst h; exact digit_isDigit _)

theorem mem_pad4_isDigit {c : Char} {n : Nat} (h : c ∈ pad4 n) : c.isDigit = true := by
  simp [pad4] at h
  rcases h with h | h | h | h <;> (subst h; exact digit_isDigit _)

theorem filter_isDigit_pad2 (n : Nat) : (pad2 n).filter Char.isDigit = pad2 n := by
  simp [pad2, List.filter_cons, digit_isDigit]

theorem filter_isDigit_pad3 (n : Nat) : (pad3 n).filter Char.isDigit = pad3 n := by
  simp [pad3, List.filter_cons, digit_isDigit]

theorem filter_isDigit_pad4 (n : Nat) : (pad4 n).filter Char.isDigit = pad4 n := by
  simp [pad4, List.filter_cons, digit_isDigit]

theorem filter_isDigit_iso (d : DateTimeUTC) :
    (toISOStringChars d).filter Char.isDigit
      = pad4 d.year ++ pad2 d.month ++ pad2 d.day ++ pad2 d.hour
          ++ pad2 d.minute ++ pad2 d.second ++ pad3 d.millis := by
  have hd : Char.isDigit '-' = false := by decide
  have hT : Char.isDigit 'T' = false := by decide
  have hc : Char.isDigit ':' = false := by decide
  have hp : Char.isDigit '.' = false := by decide
  have hZ : Char.isDigit 'Z' = false := by decide
  simp [toISOStringChars, List.filter_append, List.filter_cons, hd, hT, hc, hp, hZ,
    filter_isDigit_pad2, filter_isDigit_pad3, filter_isDigit_pad4, List.append_assoc]

theorem darajaTimestamp_eq (d : DateTimeUTC) :
    darajaTimestamp d = ⟨pad4 d.year ++ pad2 d.month ++ pad2 d.day ++ pad2 d.hour
      ++ pad2 d.minute ++ pad2 d.second⟩ := by
  unfold darajaTimestamp
  rw [filter_isDigit_iso]
  rfl

theorem darajaTimestamp_length (d : DateTimeUTC) : (darajaTimestamp d).length = 14 := by
  rw [darajaTimestamp_eq]
  show (pad4 d.year ++ pad2 d.month ++ pad2 d.day ++ pad2 d.hour
    ++ pad2 d.minute ++ pad2 d.second).length = 14
  simp [pad4, pad2]

theorem darajaTimestamp_digits (d : DateTimeUTC) :
    ∀ c ∈ (darajaTimestamp d).data, c.isDigit = true := by
  rw [darajaTimestamp_eq]
  intro c hc
  have hc2 : c ∈ pad4 d.year ++ pad2 d.month ++ pad2 d.day ++ pad2 d.hour
      ++ pad2 d.minute ++ pad2 d.second := hc
  simp only [List.mem_append] at hc2
  rcases hc2 with ((((h | h) | h) | h) | h) | h
  · exact mem_pad4_isDigit h
  · exact mem_pad2_isDigit h
  · exact mem_pad2_isDigit h
  · exact mem_pad2_isDigit h
  · exact mem_pad2_isDigit h
  · exact mem_pad2_isDigit h

/-- C4: for every invocation of `stkPush`, the Timestamp field sent is
exactly 14 numeric characters derived from the current UTC time, and the
Password field sent is the base64 of businessShortCode ++ passKey ++ that
same timestamp. -/
theorem stk_push_timestamp_password_shape (shortCode passKey callbackUrl phoneNumber
    accountReference transactionDesc : String) (amount : Int) (now : DateTimeUTC) :
    (buildStkPushRequest shortCode passKey callbackUrl now phoneNumber amount
      accountReference transactionDesc).Timestamp.length = 14 ∧
    (∀ c ∈ (buildStkPushRequest shortCode passKey callbackUrl now phoneNumber amount
      accountReference transactionDesc).Timestamp.data, c.isDigit = true) ∧
    (buildStkPushRequest shortCode passKey callbackUrl now phoneNumber amount
      accountReference transactionDesc).Password
      = base64EncodeStr (shortCode ++ passKey
          ++ (buildStkPushRequest shortCode passKey callbackUrl now phoneNumber amount
            accountReference transactionDesc).Timestamp) :=
  ⟨darajaTimestamp_length now, darajaTimestamp_digits now, rfl⟩

/-- C5: with no credential cached, the first gateway operation performs
exactly one token exchange and caches the returned token; a second
consecutive operation (here a disbursement) then performs none — each
operation acquires a token first only when no cached token exists. -/
theorem token_exchange_cached_once (tok : String) (c1 c2 : Except String String)
    (h : tok ≠ "") :
    (stkPushOp (Except.ok tok) c1 { auth := none }).2.2 = 1 ∧
    (stkPushOp (Except.ok tok) c1 { auth := none }).1 = { auth := some tok } ∧
    (b2cOp (Except.ok tok) c2 (stkPushOp (Except.ok tok) c1 { auth := none }).1).2.2 = 0 := by
  have htr : jsTruthyStr (some tok) = true := by simpa [jsTruthyStr] using h
  have hst : (stkPushOp (Except.ok tok) c1 { auth := none }).1 = { auth := some tok } := by
    cases c1 <;> rfl
  refine ⟨by cases c1 <;> rfl, hst, ?_⟩
  rw [hst]
  cases c2 <;> simp [b2cOp, ensureAuth, htr]

/-- C5 witness: two concrete consecutive operations from a fresh client
perform exactly one token exchange in total. -/
theorem token_exchange_cached_once_witness :
    (stkPushOp (Except.ok "tok123") (Except.ok "resp1") { auth := none }).2.2 = 1 ∧
    (stkPushOp (Except.ok "tok123") (Except.ok "resp1") { auth := none }).1
      = { auth := some "tok123" } ∧
    (b2cOp (Except.ok "tok123") (Except.ok "resp2")
      (stkPushOp (Except.ok "tok123") (Except.ok "resp1") { auth := none }).1).2.2 = 0 :=
  token_exchange_cached_once "tok123" (Except.ok "resp1") (Except.ok "resp2") (by decide)

/-- C6: construction succeeds exactly when every required resolved field is
truthy; otherwise it fails with a message enumerating, in source order,
exactly the names of the missing required fields. -/
theorem config_missing_fields_exact (config env : RawConfig) :
    ((missingFields (resolveConfig config env)).isEmpty = true →
      ∃ sdk, mkDarajaSDK config env = Except.ok sdk) ∧
    ((missingFields (resolveConfig config env)).isEmpty = false →
      mkDarajaSDK config env = Except.error ("Missing required configuration: "
        ++ String.intercalate ", " (missingFields (resolveConfig config env))
        ++ ". Please provide them in .env file or in the constructor.")) ∧
    (∀ name, name ∈ missingFields (resolveConfig config env)
      ↔ ∃ v, (name, v) ∈ requiredEntries (resolveConfig config env)
          ∧ jsTruthyStr v = false) := by
  refine ⟨?_, ?_, ?_⟩
  · intro h
    refine ⟨{ cfg := resolveConfig config env
              baseUrl :=
                if (resolveConfig config env).environment == some "production"
                then "https://api.safaricom.co.ke"
                else "https://sandbox.safaricom.co.ke"
              auth := none }, ?_⟩
    simp [mkDarajaSDK, validateConfig, h]
  · intro h
    simp only [mkDarajaSDK, validateConfig, h, Bool.false_eq_true, if_false]
  · intro name
    constructor
    · intro hm
      simp only [missingFields, List.mem_map, List.mem_filter] at hm
      obtain ⟨p, ⟨hin, hfal⟩, heq⟩ := hm
      refine ⟨p.2, ?_, ?_⟩
      · rw [← heq]
        exact hin
      · simpa using hfal
    · rintro ⟨v, hin, hfal⟩
      simp only [missingFields, List.mem_map, List.mem_filter]
      exact ⟨(name, v), ⟨hin, by simp [hfal]⟩, rfl⟩

/-- C6 witness: a concrete configuration missing `Pass Key` (absent) and
`Initiator Name` (empty, hence falsy), with no environment fallback, fails
construction with exactly those two names enumerated. -/
theorem config_missing_fields_exact_witness :
    mkDarajaSDK demoConfig emptyEnvConfig = Except.error
      "Missing required configuration: Pass Key, Initiator Name. Please provide them in .env file or in the constructor." := by
  have h := (config_missing_fields_exact demoConfig emptyEnvConfig).2.1 (by decide)
  exact h.trans (congrArg Except.error (by decide))

/-- C7 counterexample: re-applying the same success callback at a later
processing time rewrites the record's `timestamp` field, so the record's
fields are not all identical to those after the first application (the
status stays SUCCESS and the payment fields are unchanged). -/
theorem duplicate_callback_timestamp_differs :
    mapGet (processCallback "2025-01-01T00:00:05.000Z"
        (processCallback "2025-01-01T00:00:00.000Z" []
          (CallbackBody.wellFormed demoSuccessCb))
        (CallbackBody.wellFormed demoSuccessCb)) "ws_CO_1"
      ≠ mapGet (processCallback "2025-01-01T00:00:00.000Z" []
          (CallbackBody.wellFormed demoSuccessCb)) "ws_CO_1" ∧
    Option.map TransactionRecord.status
      (mapGet (processCallback "2025-01-01T00:00:05.000Z"
        (processCallback "2025-01-01T00:00:00.000Z" []
          (CallbackBody.wellFormed demoSuccessCb))
        (CallbackBody.wellFormed demoSuccessCb)) "ws_CO_1") = some "SUCCESS" ∧
    Option.map TransactionRecord.timestamp
      (mapGet (processCallback "2025-01-01T00:00:00.000Z" []
        (CallbackBody.wellFormed demoSuccessCb)) "ws_CO_1")
      = some "2025-01-01T00:00:00.000Z" ∧
    Option.map TransactionRecord.timestamp
      (mapGet (processCallback "2025-01-01T00:00:05.000Z"
        (processCallback "2025-01-01T00:00:00.000Z" []
          (CallbackBody.wellFormed demoSuccessCb))
        (CallbackBody.wellFormed demoSuccessCb)) "ws_CO_1")
      = some "2025-01-01T00:00:05.000Z" :=
  ⟨by decide, by decide, by decide, by decide⟩

/-- C7 (amended): re-applying the same success callback does not throw (the
handler still acknowledges with the fixed success body) and leaves the
record in SUCCESS with amount, receipt number, transaction date, phone
number and raw callback identical to the first application; only the
bookkeeping `timestamp` field is replaced by the time of re-processing. -/
theorem duplicate_callback_same_fields_new_timestamp (t1 t2 desc id : String)
    (store : Store) (items : List MetaItem) :
    mapGet (processCallback t1 store (CallbackBody.wellFormed (cbWithItems desc id items))) id
      = some (successRecord t1 (cbWithItems desc id items) items) ∧
    mapGet (processCallback t2
        (processCallback t1 store (CallbackBody.wellFormed (cbWithItems desc id items)))
        (CallbackBody.wellFormed (cbWithItems desc id items))) id
      = some (successRecord t2 (cbWithItems desc id items) items) ∧
    successRecord t2 (cbWithItems desc id items) items
      = { successRecord t1 (cbWithItems desc id items) items with timestamp := t2 } ∧
    (successRecord t2 (cbWithItems desc id items) items).status = "SUCCESS" ∧
    (mpesaCallbackHandler false t2
        (processCallback t1 store (CallbackBody.wellFormed (cbWithItems desc id items)))
        "POST" (CallbackBody.wellFormed (cbWithItems desc id items))).2
      = CallbackAck.ack 0 "Success" := by
  have h1 : processCallback t1 store (CallbackBody.wellFormed (cbWithItems desc id items))
      = mapSet store id (successRecord t1 (cbWithItems desc id items) items) :=
    processCallback_writes t1 store _ _ _ rfl rfl rfl
  have h2 : processCallback t2
      (processCallback t1 store (CallbackBody.wellFormed (cbWithItems desc id items)))
      (CallbackBody.wellFormed (cbWithItems desc id items))
      = mapSet (processCallback t1 store (CallbackBody.wellFormed (cbWithItems desc id items)))
          id (successRecord t2 (cbWithItems desc id items) items) :=
    processCallback_writes t2 _ _ _ _ rfl rfl rfl
  refine ⟨?_, ?_, rfl, rfl, rfl⟩
  · rw [h1]
    exact mapGet_mapSet_self store id _
  · rw [h2]
    exact mapGet_mapSet_self _ id _

/-- C8: a failed token exchange makes `generateToken` fail with an error
carrying the upstream message; the `stkPush` that triggered it surfaces an
error whose message contains "failed", performs exactly one token-exchange
attempt and caches nothing — no automatic retry of either call. -/
theorem token_failure_wrapped_no_retry (upstream : String) (c : Except String String) :
    generateToken (Except.error upstream)
      = Except.error ("Token generation failed: " ++ upstream) ∧
    (stkPushOp (Except.error upstream) c { auth := none }).2.1
      = Except.error ("STK push failed: Token generation failed: " ++ upstream) ∧
    (∃ p s, ("STK push failed: Token generation failed: " ++ upstream).data
      = p ++ "failed".data ++ s) ∧
    (stkPushOp (Except.error upstream) c { auth := none }).2.2 = 1 ∧
    (stkPushOp (Except.error upstream) c { auth := none }).1 = { auth := none } :=
  ⟨rfl, rfl,
    ⟨"STK push ".data, (": Token generation failed: " ++ upstream).data, by
      rw [String.data_append, String.data_append]
      rfl⟩,
    rfl, rfl⟩

/-- C9: the hourly cleanup of the second demonstration server removes
exactly the records whose timestamp is older than the retention window
`maxAge` relative to `now` (reference behaviour: `oneHourMs`), and leaves
every newer record untouched and in order. -/
theorem sweep_removes_only_expired (now maxAge : Int) (store : List (String × PollRecord)) :
    (∀ k r, ((k, r) ∈ sweepTransactions now maxAge store)
      ↔ ((k, r) ∈ store ∧ ¬ (r.timestamp < now - maxAge))) ∧
    (sweepTransactions now maxAge store).Sublist store := by
  constructor
  · intro k r
    simp [sweepTransactions, List.mem_filter]
  · exact List.filter_sublist _

/-- C2 witness: the amended behaviour evaluated at a concrete callback. -/
theorem apply_callback_success_and_failure_effect_witness :
    (successRecord "2025-01-02T00:00:00.000Z" (cbWithItems "Processed" "ws_CO_7" demoItems)
      demoItems).amount = JVal.num 500 :=
  (apply_callback_success_and_failure_effect "2025-01-02T00:00:00.000Z" "Processed"
    "ws_CO_7" [] none).2.2.1

/-- C4 witness: a concrete build has a 14-character timestamp. -/
theorem stk_push_timestamp_password_shape_witness :
    (buildStkPushRequest "174379" "test_pass_key" "https://example.com/callback"
      { year := 2026, month := 10, day := 12, hour := 8, minute := 30, second := 45,
        millis := 123 }
      "254712345678" 1 "TEST001" "Test Payment").Timestamp.length = 14 :=
  (stk_push_timestamp_password_shape "174379" "test_pass_key"
    "https://example.com/callback" "254712345678" "TEST001" "Test Payment" 1
    { year := 2026, month := 10, day := 12, hour := 8, minute := 30, second := 45,
      millis := 123 }).1

/-- C7 witness: the re-applied record is still in SUCCESS. -/
theorem duplicate_callback_same_fields_new_timestamp_witness :
    (successRecord "2025-01-01T00:00:05.000Z" (cbWithItems "Processed" "ws_CO_8" demoItems)
      demoItems).status = "SUCCESS" :=
  (duplicate_callback_same_fields_new_timestamp "2025-01-01T00:00:00.000Z"
    "2025-01-01T00:00:05.000Z" "Processed" "ws_CO_8" [] demoItems).2.2.2.1

/-- C8 witness: a concrete upstream 401 message is wrapped and carried. -/
theorem token_failure_wrapped_no_retry_witness :
    generateToken (Except.error "Request failed with status code 401")
      = Except.error "Token generation failed: Request failed with status code 401" :=
  ((token_failure_wrapped_no_retry "Request failed with status code 401"
    (Except.ok "resp")).1).trans (congrArg Except.error (by decide))

/-- C9 witness: the sweep membership characterisation at a concrete store. -/
theorem sweep_removes_only_expired_witness :
    (("k1", ({ status := "COMPLETE", message := some "ok", timestamp := 1000 } : PollRecord))
        ∈ sweepTransactions 5000000 3600000
          [("k1", { status := "COMPLETE", message := some "ok", timestamp := 1000 })])
      ↔ ((("k1", ({ status := "COMPLETE", message := some "ok", timestamp := 1000 } : PollRecord))
          ∈ [("k1", ({ status := "COMPLETE", message := some "ok", timestamp := 1000 } : PollRecord))])
        ∧ ¬ ((1000 : Int) < 5000000 - 3600000)) :=
  (sweep_removes_only_expired 5000000 3600000
    [("k1", { status := "COMPLETE", message := some "ok", timestamp := 1000 })]).1 "k1"
    { status := "COMPLETE", message := some "ok", timestamp := 1000 }

end Daraja
